import Mathlib

/-!
Verification of the pipeline/target-matrix core of the `aab` add-on builder
CLI (`aab/cli.py`).  Pure Python functions are embedded as Lean functions;
the `logging` and `print` side effects are embedded as explicit lists of
emitted lines; a Python exception propagating out of a call is embedded as
`Except.error`.  Components that live outside `aab/cli.py` (the `AddonBuilder`,
the `Config` store, the manifest writer, the constant `DIST_TYPES`) are
modelled from the specification; every such definition carries a doc comment
starting with `Modelled from the spec:`.

Abstract names of the specification map to the code as follows:
variantA = `QtVersion.qt5`, variantB = `QtVersion.qt6`,
channel local = `"local"`, channel hosted = `"ankiweb"`.
-/

namespace Aab

/-- The `QtVersion` enumeration of `aab/ui.py` (members `qt5` and `qt6`,
as used by `cli.get_qt_versions`). -/
inductive QtVersion where
  | qt5
  | qt6
deriving DecidableEq, Repr

/-- Python `QtVersion[key]`: enum lookup by member name; an unknown key
raises `KeyError`, embedded as `none`. -/
def qt_version_of_key (key : String) : Option QtVersion :=
  if key = "qt5" then some QtVersion.qt5
  else if key = "qt6" then some QtVersion.qt6
  else none

/-- Embedding of `cli.get_qt_versions`:
`targets = [args.target] if args.target != "all" else Config()["targets"]`,
then `[qt5, qt6]` if `"anki21" in targets`, else `[QtVersion[key] for key
in targets]`.  The contents of `Config()["targets"]` are passed in as the
parameter `cfg` (the configuration store is external input). -/
def get_qt_versions (target : String) (cfg : List String) : Option (List QtVersion) :=
  let targets := if target = "all" then cfg else [target]
  if "anki21" ∈ targets then some [QtVersion.qt5, QtVersion.qt6]
  else targets.mapM qt_version_of_key

/-- Modelled from the spec: the reference contents of the configuration
store's `targets` list (`aab/config.py` / `addon.json` are not part of the
embedded sources).  Per §4.3 the full variant set is listed in the fixed
order variantA (`qt5`) before variantB (`qt6`). -/
def std_config_targets : List String := ["qt5", "qt6"]

/-- Modelled from the spec: the constant `DIST_TYPES` imported by `cli.py`
from the package root (not part of the embedded sources); the two
distribution channels in the fixed order local before hosted (`ankiweb`). -/
def DIST_TYPES : List String := ["local", "ankiweb"]

/-- The dist-selection expression shared by `cli.build`, `cli.build_dist`
and `cli.package_dist`:
`dists = [args.dist] if args.dist != "all" else DIST_TYPES`. -/
def get_dists (dist : String) : List String :=
  if dist = "all" then DIST_TYPES else [dist]

/-- Modelled from the spec: one call `AddonBuilder.build(qt_versions, dist)`
(`aab/builder.py` is not part of the embedded sources) processes, for its one
distribution channel, each requested Qt version in the order of the list it
was given. -/
def builder_build_units (qts : List QtVersion) (dist : String) : List (QtVersion × String) :=
  qts.map (fun q => (q, dist))

/-- The ordered sequence of (variant, channel) build units processed by one
invocation of `cli.build`: the outer loop is `for dist in dists`, and each
iteration hands the full `qt_versions` list to `AddonBuilder.build`. -/
def build_units (target dist : String) (cfg : List String) :
    Option (List (QtVersion × String)) :=
  (get_qt_versions target cfg).map
    (fun qts => (get_dists dist).flatMap (builder_build_units qts))

/-- A caller-visible notice printed by `cli.main` (embeds the deprecation
warning text printed for the legacy `anki21` target). -/
inductive Notice where
  | deprecatedAnki21
deriving DecidableEq, Repr

/-- Embedding of the argument-alias normalization in `cli.main`:
`if hasattr(args, "target") and args.target == "anki21": print(WARNING...);
args.target = "all"`.  Returns the rewritten target together with the list
of notices printed. -/
def normalize_target (target : String) : String × List Notice :=
  if target = "anki21" then ("all", [Notice.deprecatedAnki21]) else (target, [])

/-- The progress line logged by the per-dist loops of `cli.build`,
`cli.build_dist` and `cli.package_dist`:
`logging.info("\n=== Build task %s/%s ===", cnt, total)`. -/
def task_log (cnt total : Nat) : String :=
  "\n=== Build task " ++ toString cnt ++ "/" ++ toString total ++ " ==="

/-- Observable outcome of one run of a per-dist loop: the progress lines
logged, the dists for which the builder call was actually started, and the
error of a builder call that raised, if any. -/
structure LoopResult where
  logs : List String
  attempted : List String
  failure : Option String
deriving DecidableEq, Repr

/-- Embedding of the per-dist loop body shared by `cli.build`,
`cli.build_dist` and `cli.package_dist`:
`cnt = 1; total = len(dists); for dist in dists: logging.info(...);
builder.<step>(...); cnt += 1`.  The loop has no exception handler, so a
`step` that raises (`Except.error`) propagates and ends the loop. -/
def run_dist_loop_aux (step : String → Except String Unit) (total : Nat) :
    Nat → List String → LoopResult
  | _, [] => ⟨[], [], none⟩
  | cnt, d :: ds =>
    match step d with
    | Except.ok _ =>
      let r := run_dist_loop_aux step total (cnt + 1) ds
      ⟨task_log cnt total :: r.logs, d :: r.attempted, r.failure⟩
    | Except.error e => ⟨[task_log cnt total], [d], some e⟩

/-- The per-dist loop of `cli.build` (and of `cli.build_dist` /
`cli.package_dist`), started with `cnt = 1` and `total = len(dists)`. -/
def run_dist_loop (step : String → Except String Unit) (dists : List String) : LoopResult :=
  run_dist_loop_aux step dists.length 1 dists

/-- Errors surfaced by `cli.manifest`, embedded as values: `versionError`
stands for an exception raised by `Git().parse_version`;
`ambiguousChannel` stands for the printed line
`'all' is not supported as a dist_type value when building the manifest.`
together with the `return False` that follows it. -/
inductive CliError where
  | ambiguousChannel
  | versionError
deriving DecidableEq, Repr

/-- An on-disk file store: association list from a path (list of segments
relative to the project root `PATH_ROOT`) to file contents. -/
abbrev FS := List (List String × String)

/-- Look up the contents of a path in a file store. -/
def fs_get (fs : FS) (p : List String) : Option String :=
  match fs with
  | [] => none
  | e :: rest => if e.1 = p then some e.2 else fs_get rest p

/-- The manifest file name used by the manifest writer. -/
def MANIFEST_FILE : String := "manifest.json"

/-- The `target_dir` argument `cli.manifest` passes to the manifest writer:
`PATH_ROOT / "src" / addon_properties["module_name"]`. -/
def manifest_target_dir (moduleName : String) : List String :=
  ["src", moduleName]

/-- Modelled from the spec: the staged build tree lives under `build/dist`
(per the `create_dist` / `build_dist` / `package_dist` help texts), so the
module subdirectory of the staged tree for module `m` is
`build/dist/src/m`.  The stager itself (`aab/builder.py`) is not part of
the embedded sources. -/
def staged_module_dir (moduleName : String) : List String :=
  ["build", "dist", "src", moduleName]

/-- Modelled from the spec: `ManifestUtils.generate_and_write_manifest`
(`aab/manifest.py` is not part of the embedded sources) writes the manifest
as a file `target_dir/manifest.json`, overwriting any prior manifest file
at that location and touching nothing else. -/
def write_manifest_file (fs : FS) (targetDir : List String) (content : String) : FS :=
  (targetDir ++ [MANIFEST_FILE], content) ::
    fs.filter (fun e => e.1 ≠ targetDir ++ [MANIFEST_FILE])

/-- Embedding of `cli.manifest`: parse the version (may raise), read the
properties, reject `dist == "all"` before any write, otherwise call the
manifest writer on `PATH_ROOT/src/<module_name>`.  Returns the outcome, the
resulting file store, and the list of target directories the writer was
invoked on.  `content` abstracts the manifest text derived from the add-on
properties, the parsed version and the dist type. -/
def manifest_cmd (fs : FS) (parsedVersion : Except CliError String)
    (moduleName dist content : String) :
    Except CliError Unit × FS × List (List String) :=
  match parsedVersion with
  | Except.error e => (Except.error e, fs, [])
  | Except.ok _ =>
    if dist = "all" then (Except.error CliError.ambiguousChannel, fs, [])
    else
      (Except.ok (),
       write_manifest_file fs (manifest_target_dir moduleName) content,
       [manifest_target_dir moduleName])

/-- The error line printed by `cli.validate_cwd` for a missing required
path, formatted with the path's base name. -/
def error_msg (name : String) : String :=
  "Error: " ++ name ++ " not found. Please run this script from the project root."

/-- The base names of the required paths checked by `cli.validate_cwd`:
`PATH_ROOT / "src"` and `PATH_CONFIG` (the `addon.json` configuration file,
per the CLI help text; `aab/config.py` is not part of the embedded
sources). -/
def required_paths : List String := ["src", "addon.json"]

/-- Embedding of the loop of `cli.validate_cwd`: for each required path, if
it does not exist, print the error line and return `False`; return `True`
after the loop.  `fs` is the set of required base names that exist in the
current directory. -/
def validate_cwd_aux (fs : List String) : List String → Bool × List String
  | [] => (true, [])
  | p :: ps => if p ∈ fs then validate_cwd_aux fs ps else (false, [error_msg p])

/-- Embedding of `cli.validate_cwd`. -/
def validate_cwd (fs : List String) : Bool × List String :=
  validate_cwd_aux fs required_paths

/-- How a run of `cli.main` ends: `sys.exit(code)`, or dispatch to the
selected sub-command `args.func(args)`. -/
inductive MainOutcome where
  | exited (code : Nat)
  | dispatched
deriving DecidableEq, Repr

/-- Embedding of the check sequence of `cli.main`: after argument parsing,
`if not validate_cwd(): sys.exit(1)` runs before `args.func(args)`.
`dispatch` is the output the selected sub-command would print; it is
appended only when the check passes, so an exit never runs any stage. -/
def main_run (fs : List String) (dispatch : List String) : MainOutcome × List String :=
  let v := validate_cwd fs
  if v.1 then (MainOutcome.dispatched, v.2 ++ dispatch)
  else (MainOutcome.exited 1, v.2)

/-- Key string of a Qt version, as used in archive names. -/
def qt_key : QtVersion → String
  | QtVersion.qt5 => "qt5"
  | QtVersion.qt6 => "qt6"

/-- Sequencing errors of the staged pipeline (spec §7): a stage invoked
before the stage it depends on has run. -/
inductive StageError where
  | notStaged
  | notBuilt
deriving DecidableEq, Repr

/-- Modelled from the spec: the on-disk state that persists between the
`create_dist`, `build_dist` and `package_dist` process runs (§6: the staged
build directory is exactly the persisted state).  `staged` holds the
version the tree under `build/dist` was staged at, `built` the transform
steps already applied to it, `archives` the packaged archive names. -/
structure DiskState where
  staged : Option String
  built : List (QtVersion × String)
  archives : List String
deriving DecidableEq, Repr

/-- Modelled from the spec: the deterministic archive name, a pure function
of add-on identity, resolved version, toolkit variants and channel
(§4.6). -/
def archive_name (module version : String) (qts : List QtVersion) (dist : String) : String :=
  String.intercalate "-" ([module, version] ++ qts.map qt_key ++ [dist])

/-- Overwrite-style insertion of an archive name (§4.6: identical inputs
overwrite the prior archive of that exact name). -/
def insert_archive (archives : List String) (name : String) : List String :=
  name :: archives.filter (fun a => a ≠ name)

/-- Modelled from the spec: `AddonBuilder.create_dist` (`aab/builder.py` is
not part of the embedded sources) re-stages the tree at the requested
version, clearing prior staged contents and transform artifacts but leaving
already-packaged archives alone (§4.2). -/
def create_dist_op (version : String) (s : DiskState) : DiskState :=
  { staged := some version, built := [], archives := s.archives }

/-- Modelled from the spec: `AddonBuilder.build_dist` requires a staged
tree (`NotStaged` otherwise) and applies the UI-compilation and manifest
transforms for each requested Qt version to the staged tree (§4.5). -/
def build_dist_op (qts : List QtVersion) (dist : String) (s : DiskState) :
    Except StageError DiskState :=
  match s.staged with
  | none => Except.error StageError.notStaged
  | some _ => Except.ok { s with built := qts.map (fun q => (q, dist)) }

/-- Modelled from the spec: `AddonBuilder.package_dist` requires a staged,
transformed tree and snapshots it into a deterministically named archive,
overwriting an archive of the same name (§4.5, §4.6). -/
def package_dist_op (module : String) (qts : List QtVersion) (dist : String)
    (s : DiskState) : Except StageError DiskState :=
  match s.staged with
  | none => Except.error StageError.notStaged
  | some v =>
    if ∀ q ∈ qts, (q, dist) ∈ s.built then
      Except.ok { s with archives := insert_archive s.archives (archive_name module v qts dist) }
    else Except.error StageError.notBuilt

/-- Modelled from the spec: the convenience `AddonBuilder.build` performs,
in one call, the staging, transform and packaging work for one build unit
(§4.5); written out here as its net effect on the on-disk state. -/
def builder_build_op (module version : String) (qts : List QtVersion) (dist : String)
    (s : DiskState) : Except StageError DiskState :=
  Except.ok
    { staged := some version,
      built := qts.map (fun q => (q, dist)),
      archives := insert_archive s.archives (archive_name module version qts dist) }

end Aab

namespace Aab

theorem run_dist_loop_aux_ok (step : String → Except String Unit) (total : Nat)
    (ds : List String) :
    ∀ cnt : Nat, (∀ d ∈ ds, step d = Except.ok ()) →
      (run_dist_loop_aux step total cnt ds).logs =
        (List.range ds.length).map (fun i => task_log (cnt + i) total) ∧
      (run_dist_loop_aux step total cnt ds).attempted = ds ∧
      (run_dist_loop_aux step total cnt ds).failure = none := by
  induction ds with
  | nil => intro cnt _; exact ⟨rfl, rfl, rfl⟩
  | cons d ds ih =>
    intro cnt h
    have hd : step d = Except.ok () := h d (by simp)
    have ihc := ih (cnt + 1) (fun x hx => h x (by simp [hx]))
    refine ⟨?_, ?_, ?_⟩
    · simp only [run_dist_loop_aux, hd]
      rw [ihc.1, List.length_cons, List.range_succ_eq_map, List.map_cons, List.map_map,
        Nat.add_zero]
      congr 1
      apply List.map_congr_left
      intro i _
      simp only [Function.comp_apply]
      congr 1
      omega
    · simp only [run_dist_loop_aux, hd]
      rw [ihc.2.1]
    · simp only [run_dist_loop_aux, hd]
      exact ihc.2.2

theorem run_dist_loop_aux_stops (step : String → Except String Unit) (total : Nat)
    (d : String) (post : List String) (e : String) (hd : step d = Except.error e) :
    ∀ (pre : List String) (cnt : Nat), (∀ x ∈ pre, step x = Except.ok ()) →
      (run_dist_loop_aux step total cnt (pre ++ d :: post)).attempted = pre ++ [d] ∧
      (run_dist_loop_aux step total cnt (pre ++ d :: post)).failure = some e := by
  intro pre
  induction pre with
  | nil => intro cnt _; simp [run_dist_loop_aux, hd]
  | cons x xs ih =>
    intro cnt h
    have hx : step x = Except.ok () := h x (by simp)
    have ihc := ih (cnt + 1) (fun y hy => h y (by simp [hy]))
    refine ⟨?_, ?_⟩
    · simp only [List.cons_append, run_dist_loop_aux, hx]
      exact congrArg (fun l => x :: l) ihc.1
    · simp only [List.cons_append, run_dist_loop_aux, hx]
      exact ihc.2

theorem fs_get_write_same (fs : FS) (d : List String) (c : String) :
    fs_get (write_manifest_file fs d c) (d ++ [MANIFEST_FILE]) = some c := by
  simp [write_manifest_file, fs_get]

theorem fs_get_filter_ne (fs : FS) (k q : List String) (hq : q ≠ k) :
    fs_get (fs.filter (fun e => e.1 ≠ k)) q = fs_get fs q := by
  induction fs with
  | nil => rfl
  | cons e rest ih =>
    by_cases he : e.1 = k
    · rw [List.filter_cons_of_neg (by simp [he]), ih]
      show fs_get rest q = if e.1 = q then some e.2 else fs_get rest q
      rw [if_neg (fun h : e.1 = q => hq (h.symm.trans he))]
    · rw [List.filter_cons_of_pos (by simp [he])]
      show (if e.1 = q then some e.2 else fs_get (rest.filter (fun e => e.1 ≠ k)) q) =
        (if e.1 = q then some e.2 else fs_get rest q)
      rw [ih]

theorem fs_get_write_other (fs : FS) (d : List String) (c : String) (q : List String)
    (hq : q ≠ d ++ [MANIFEST_FILE]) :
    fs_get (write_manifest_file fs d c) q = fs_get fs q := by
  simp only [write_manifest_file, fs_get]
  rw [if_neg (by exact fun h => hq h.symm)]
  exact fs_get_filter_ne fs (d ++ [MANIFEST_FILE]) q hq

/-- C1, counterexample: with the reference configuration, `cli.build` under
(`all`, `all`) processes the 4 build units grouped by channel — the outer
loop of `cli.build` is over dist types — so the claimed variant-major
sequence (variantA,local), (variantA,hosted), (variantB,local),
(variantB,hosted) is not the produced order, under either assignment of
variantA/variantB to qt5/qt6. -/
theorem aab_c1_counterexample :
    build_units "all" "all" std_config_targets =
      some [(QtVersion.qt5, "local"), (QtVersion.qt6, "local"),
            (QtVersion.qt5, "ankiweb"), (QtVersion.qt6, "ankiweb")] ∧
    build_units "all" "all" std_config_targets ≠
      some [(QtVersion.qt5, "local"), (QtVersion.qt5, "ankiweb"),
            (QtVersion.qt6, "local"), (QtVersion.qt6, "ankiweb")] ∧
    build_units "all" "all" std_config_targets ≠
      some [(QtVersion.qt6, "local"), (QtVersion.qt6, "ankiweb"),
            (QtVersion.qt5, "local"), (QtVersion.qt5, "ankiweb")] := by
  decide

/-- C1, amended: for the selector pair (variantSelector = `all`,
channelSelector = `all`) with the reference configuration, matrix expansion
yields exactly 4 ordered build units in the channel-major sequence
(variantA,local), (variantB,local), (variantA,hosted), (variantB,hosted);
the expansion is a pure function of its inputs, so repeated calls with the
same inputs yield the same sequence. -/
theorem aab_c1_channel_major_order :
    build_units "all" "all" std_config_targets =
      some [(QtVersion.qt5, "local"), (QtVersion.qt6, "local"),
            (QtVersion.qt5, "ankiweb"), (QtVersion.qt6, "ankiweb")] := by
  decide

/-- C2, counterexample: in the per-dist loop of `cli.build` /
`cli.build_dist`, an error raised while processing the first of two units
ends the run — the second unit is never attempted — refuting the claim
that every subsequent unit in the sequence is still attempted. -/
theorem aab_c2_counterexample :
    (run_dist_loop (fun d => if d = "local" then Except.error "boom" else Except.ok ())
        ["local", "ankiweb"]).attempted = ["local"] ∧
    "ankiweb" ∉
      (run_dist_loop (fun d => if d = "local" then Except.error "boom" else Except.ok ())
        ["local", "ankiweb"]).attempted := by
  decide

/-- C2, amended: when a single invocation processes multiple build units in
sequence, an error raised while processing one unit propagates and aborts
the invocation: the units before it complete, the failing unit is the last
one attempted, the error is reported, and no subsequent unit is
attempted. -/
theorem aab_c2_error_aborts_loop (step : String → Except String Unit)
    (pre : List String) (d : String) (post : List String) (e : String)
    (hpre : ∀ x ∈ pre, step x = Except.ok ()) (hd : step d = Except.error e) :
    (run_dist_loop step (pre ++ d :: post)).attempted = pre ++ [d] ∧
    (run_dist_loop step (pre ++ d :: post)).failure = some e :=
  run_dist_loop_aux_stops step (pre ++ d :: post).length d post e hd pre 1 hpre

/-- C2, witness for `aab_c2_error_aborts_loop`. -/
theorem aab_c2_error_aborts_loop_witness :
    (run_dist_loop (fun d => if d = "ankiweb" then Except.error "boom" else Except.ok ())
        (["local"] ++ "ankiweb" :: [])).attempted = ["local"] ++ ["ankiweb"] ∧
    (run_dist_loop (fun d => if d = "ankiweb" then Except.error "boom" else Except.ok ())
        (["local"] ++ "ankiweb" :: [])).failure = some "boom" :=
  aab_c2_error_aborts_loop (fun d => if d = "ankiweb" then Except.error "boom" else Except.ok ())
    ["local"] "ankiweb" [] "boom"
    (fun x hx => by
      have hx2 : x = "local" := by simpa using hx
      subst hx2
      rfl)
    rfl

/-- C3, confirmed: when version parsing succeeds, invoking `cli.manifest`
with dist type `all` fails with the `AmbiguousChannel` error (the printed
rejection plus `return False`), the file store is unchanged, and the
manifest writer is never invoked. -/
theorem aab_c3_all_rejected_no_write (fs : FS) (v moduleName content : String) :
    manifest_cmd fs (Except.ok v) moduleName "all" content =
      (Except.error CliError.ambiguousChannel, fs, []) := by
  simp [manifest_cmd]

/-- C4, confirmed: with the configuration store's targets list as modelled
from the spec (either the reference list or any list containing the legacy
catch-all entry), variant expansion for selector `all` yields exactly the
two toolkit variants, variantA (`qt5`) before variantB (`qt6`). -/
theorem aab_c4_all_expands_to_both (cfg : List String)
    (h : "anki21" ∈ cfg ∨ cfg = std_config_targets) :
    get_qt_versions "all" cfg = some [QtVersion.qt5, QtVersion.qt6] := by
  rcases h with h | h
  · simp [get_qt_versions, h]
  · subst h; decide

/-- C4, witness for `aab_c4_all_expands_to_both`. -/
theorem aab_c4_all_expands_to_both_witness :
    get_qt_versions "all" std_config_targets = some [QtVersion.qt5, QtVersion.qt6] :=
  aab_c4_all_expands_to_both std_config_targets (Or.inr rfl)

/-- C5, confirmed: the alias normalization in `cli.main` rewrites the
deprecated target `anki21` to `all` while emitting exactly one deprecation
notice (and emits none for `all` itself); every downstream computation on
the rewritten target — for any command accepting a target selector —
therefore behaves exactly as under `all`, in particular variant
expansion. -/
theorem aab_c5_anki21_alias {α : Type} (downstream : String → α) (cfg : List String) :
    (normalize_target "anki21").1 = "all" ∧
    (normalize_target "anki21").2 = [Notice.deprecatedAnki21] ∧
    (normalize_target "all").2 = [] ∧
    downstream (normalize_target "anki21").1 = downstream "all" ∧
    get_qt_versions (normalize_target "anki21").1 cfg = get_qt_versions "all" cfg :=
  ⟨rfl, rfl, rfl, rfl, rfl⟩

/-- C6, counterexample: a successful run of `cli.manifest` invokes the
manifest writer on `PATH_ROOT/src/<module_name>` — the module directory of
the live source tree — which is not the module subdirectory of the staged
tree under `build/dist`, refuting the claim that the manifest is written
into the staged tree. -/
theorem aab_c6_counterexample :
    (manifest_cmd [] (Except.ok "1.2.0") "demo" "local" "m").2.2 =
      [manifest_target_dir "demo"] ∧
    manifest_target_dir "demo" ≠ staged_module_dir "demo" := by
  decide

/-- C6, amended: successful manifest generation (dist type not `all`,
version parsed) writes the manifest as a structured file into the module
subdirectory of the project source tree, `PATH_ROOT/src/<module_name>`,
overwriting any prior manifest file at that location and leaving every
other path unchanged. -/
theorem aab_c6_writes_source_module_dir (fs : FS) (v moduleName dist content : String)
    (h : dist ≠ "all") :
    (manifest_cmd fs (Except.ok v) moduleName dist content).1 = Except.ok () ∧
    (manifest_cmd fs (Except.ok v) moduleName dist content).2.2 =
      [manifest_target_dir moduleName] ∧
    fs_get (manifest_cmd fs (Except.ok v) moduleName dist content).2.1
      (manifest_target_dir moduleName ++ [MANIFEST_FILE]) = some content ∧
    ∀ p, p ≠ manifest_target_dir moduleName ++ [MANIFEST_FILE] →
      fs_get (manifest_cmd fs (Except.ok v) moduleName dist content).2.1 p = fs_get fs p := by
  refine ⟨?_, ?_, ?_, ?_⟩
  · simp [manifest_cmd, h]
  · simp [manifest_cmd, h]
  · simp only [manifest_cmd, if_neg h]
    exact fs_get_write_same fs (manifest_target_dir moduleName) content
  · intro p hp
    simp only [manifest_cmd, if_neg h]
    exact fs_get_write_other fs (manifest_target_dir moduleName) content p hp

/-- C6, witness for `aab_c6_writes_source_module_dir`: overwrites a prior
manifest file at `src/demo/manifest.json`. -/
theorem aab_c6_writes_source_module_dir_witness :
    fs_get (manifest_cmd [(["src", "demo", "manifest.json"], "old")]
        (Except.ok "1.2.0") "demo" "local" "m").2.1
      (manifest_target_dir "demo" ++ [MANIFEST_FILE]) = some "m" :=
  (aab_c6_writes_source_module_dir [(["src", "demo", "manifest.json"], "old")]
    "1.2.0" "demo" "local" "m" (by decide)).2.2.1

/-- C7, confirmed: for every build unit, the convenience build operation
has exactly the same effect on the persisted on-disk state as invoking
`create_dist`, then `build_dist`, then `package_dist` individually; each of
the three stage operations is a function of its arguments and the on-disk
state alone, so the three can run as separate external process invocations
with only the staged build directory persisting between them. -/
theorem aab_c7_build_equals_stages (module v : String) (qts : List QtVersion)
    (dist : String) (s : DiskState) :
    builder_build_op module v qts dist s =
      (build_dist_op qts dist (create_dist_op v s)).bind (package_dist_op module qts dist) := by
  simp only [builder_build_op, create_dist_op, build_dist_op, package_dist_op, Except.bind]
  rw [if_pos (fun q hq => List.mem_map.mpr ⟨q, hq, rfl⟩)]

/-- C8, confirmed: the sequential driver loop shared by `cli.build`,
`cli.build_dist` and `cli.package_dist` processes its units one at a time
in sequence order, and before the i-th unit logs the progress line
`=== Build task i/total ===` with i counting up from 1 and total the
number of units in the sequence. -/
theorem aab_c8_task_progress_logs (step : String → Except String Unit)
    (dists : List String) (h : ∀ d ∈ dists, step d = Except.ok ()) :
    (run_dist_loop step dists).logs =
      (List.range dists.length).map (fun i => task_log (i + 1) dists.length) ∧
    (run_dist_loop step dists).attempted = dists := by
  have hk := run_dist_loop_aux_ok step dists.length dists 1 h
  simp only [run_dist_loop]
  refine ⟨?_, hk.2.1⟩
  rw [hk.1]
  apply List.map_congr_left
  intro i _
  congr 1
  omega

/-- C8, witness for `aab_c8_task_progress_logs`. -/
theorem aab_c8_task_progress_logs_witness :
    (run_dist_loop (fun _ => Except.ok ()) ["local", "ankiweb"]).logs =
      (List.range (["local", "ankiweb"] : List String).length).map
        (fun i => task_log (i + 1) (["local", "ankiweb"] : List String).length) ∧
    (run_dist_loop (fun _ => Except.ok ()) ["local", "ankiweb"]).attempted =
      ["local", "ankiweb"] :=
  aab_c8_task_progress_logs (fun _ => Except.ok ()) ["local", "ankiweb"]
    (fun _ _ => rfl)

/-- C9, confirmed: for a single concrete target selector (`qt5` or `qt6`,
neither `all` nor the deprecated alias), variant expansion returns exactly
that one variant, and its result is independent of the contents of the
configuration store: runs with different configuration contents yield the
same variant list. -/
theorem aab_c9_single_target_ignores_config (cfg₁ cfg₂ : List String) :
    get_qt_versions "qt5" cfg₁ = some [QtVersion.qt5] ∧
    get_qt_versions "qt6" cfg₁ = some [QtVersion.qt6] ∧
    get_qt_versions "qt5" cfg₁ = get_qt_versions "qt5" cfg₂ ∧
    get_qt_versions "qt6" cfg₁ = get_qt_versions "qt6" cfg₂ :=
  ⟨rfl, rfl, rfl, rfl⟩

/-- C10, confirmed: if the `src` subdirectory or the configuration file is
missing from the project root, `cli.main` prints an error naming a missing
required path and exits with status 1; the selected sub-command is never
dispatched, whatever it would have done. -/
theorem aab_c10_missing_path_exits (fs : List String)
    (h : ¬ ("src" ∈ fs ∧ "addon.json" ∈ fs)) :
    ∃ name, name ∈ required_paths ∧ name ∉ fs ∧
      ∀ dispatch : List String,
        main_run fs dispatch = (MainOutcome.exited 1, [error_msg name]) := by
  by_cases hs : "src" ∈ fs
  · have hc : "addon.json" ∉ fs := fun hc => h ⟨hs, hc⟩
    refine ⟨"addon.json", by simp [required_paths], hc, ?_⟩
    intro dispatch
    simp [main_run, validate_cwd, validate_cwd_aux, required_paths, hs, hc]
  · refine ⟨"src", by simp [required_paths], hs, ?_⟩
    intro dispatch
    simp [main_run, validate_cwd, validate_cwd_aux, required_paths, hs]

/-- C10, witness for `aab_c10_missing_path_exits`: an empty project root. -/
theorem aab_c10_missing_path_exits_witness :
    ∃ name, name ∈ required_paths ∧ name ∉ ([] : List String) ∧
      ∀ dispatch : List String,
        main_run [] dispatch = (MainOutcome.exited 1, [error_msg name]) :=
  aab_c10_missing_path_exits [] (by decide)

end Aab
